import Mathlib

/-!
Verification of the homework-status polling bot (`homework.py`).

The bot's pure helpers (`check_response`, `parse_status`, `get_api_answer`,
`send_message`, `check_tokens`) and its main polling loop are embedded as
executable Lean functions over a model of Python values.  External effects
(the HTTP fetch outcome, the wall clock, whether a Telegram send raises)
are supplied per cycle through a `CycleEnv` record.
-/

/-- A model of the Python values the bot manipulates: `None`, booleans,
integers, strings, lists and string-keyed dicts (as association lists,
first binding wins, as for JSON-decoded objects). -/
inductive PyVal where
  | none
  | bool (b : Bool)
  | int (n : Int)
  | str (s : String)
  | list (xs : List PyVal)
  | dict (entries : List (String × PyVal))

/-- First-match lookup in an association list with string keys
(dict key access). -/
def lookupEntries {α : Type} : List (String × α) → String → Option α
  | [], _ => Option.none
  | (k, v) :: rest, key => if k = key then Option.some v else lookupEntries rest key

/-- Model of Python exceptions raised by the bot.  `emptyKeyError` is the
repository's `EmptyKeyError`; `exn` is a bare `Exception(msg)`. -/
inductive PyErr where
  | typeError (msg : String)
  | emptyKeyError (msg : String)
  | keyError (msg : String)
  | exn (msg : String)
  | telegramError (msg : String)
  | unboundLocalError (name : String)
deriving DecidableEq

/-- Modelled from the spec: the repository's `exceptions` module (defining
`EasyError` and `EmptyKeyError`) is not among the sources.  Per the spec, a
designated "easy" subclass of expected errors covers the missing-field case
raised by response validation, so `EmptyKeyError` is the member of the
`EasyError` class; Python built-ins (`KeyError`, `TypeError`, bare
`Exception`, transport errors) cannot be subclasses of the custom
`EasyError` and are not in the class. -/
def isEasyError : PyErr → Bool
  | PyErr.emptyKeyError _ => true
  | _ => false

/-- Python `str(error)`: a `KeyError` renders its argument with `repr`,
so the message gains surrounding quotes; the other exceptions render
their message verbatim. -/
def errStr : PyErr → String
  | PyErr.typeError m => m
  | PyErr.emptyKeyError m => m
  | PyErr.keyError m => "\x27" ++ m ++ "\x27"
  | PyErr.exn m => m
  | PyErr.telegramError m => m
  | PyErr.unboundLocalError n =>
      "local variable \x27" ++ n ++ "\x27 referenced before assignment"

/-- Does the character list `sub` occur as a contiguous run of `s`
starting at its head? -/
def charsStartWith : List Char → List Char → Bool
  | _, [] => true
  | [], _ :: _ => false
  | a :: as, b :: bs => a == b && charsStartWith as bs

/-- Does the character list `sub` occur contiguously anywhere in `s`? -/
def charsContain : List Char → List Char → Bool
  | [], sub => sub.isEmpty
  | a :: rest, sub => charsStartWith (a :: rest) sub || charsContain rest sub

/-- Python substring test `sub in s` on strings. -/
def strContainsSub (s sub : String) : Bool :=
  charsContain s.data sub.data

/-- Python membership test `k in v` for a string `k`: key lookup on dicts,
element equality on lists (a string equals only an equal string), substring
test on strings, and a `TypeError` on non-iterable values. -/
def pyContains : PyVal → String → Except PyErr Bool
  | PyVal.dict es, k => Except.ok (lookupEntries es k).isSome
  | PyVal.list xs, k =>
      Except.ok (xs.any fun v =>
        match v with
        | PyVal.str s => s = k
        | _ => false)
  | PyVal.str s, k => Except.ok (strContainsSub s k)
  | PyVal.int _, _ =>
      Except.error (PyErr.typeError "argument of type \x27int\x27 is not iterable")
  | PyVal.bool _, _ =>
      Except.error (PyErr.typeError "argument of type \x27bool\x27 is not iterable")
  | PyVal.none, _ =>
      Except.error (PyErr.typeError "argument of type \x27NoneType\x27 is not iterable")

/-- Python subscript `v[k]` for a string key `k`: dict access (raising
`KeyError` when absent) and a `TypeError` on every other value. -/
def pyGetItem : PyVal → String → Except PyErr PyVal
  | PyVal.dict es, k =>
      match lookupEntries es k with
      | Option.some v => Except.ok v
      | Option.none => Except.error (PyErr.keyError k)
  | PyVal.list _, _ =>
      Except.error (PyErr.typeError "list indices must be integers or slices, not str")
  | PyVal.str _, _ =>
      Except.error (PyErr.typeError "string indices must be integers")
  | _, _ =>
      Except.error (PyErr.typeError "object is not subscriptable")

mutual
/-- Python `repr` of a value, used when a value is formatted inside an
f-string or when `str` falls back to `repr` for containers. -/
def pyRepr : PyVal → String
  | PyVal.none => "None"
  | PyVal.bool b => if b then "True" else "False"
  | PyVal.int n => toString n
  | PyVal.str s => "\x27" ++ s ++ "\x27"
  | PyVal.list xs => "[" ++ pyReprList xs ++ "]"
  | PyVal.dict es => "\x7b" ++ pyReprEntries es ++ "\x7d"

/-- Comma-separated `repr` of list elements. -/
def pyReprList : List PyVal → String
  | [] => ""
  | [x] => pyRepr x
  | x :: y :: xs => pyRepr x ++ ", " ++ pyReprList (y :: xs)

/-- Comma-separated `repr` of dict entries. -/
def pyReprEntries : List (String × PyVal) → String
  | [] => ""
  | [(k, v)] => "\x27" ++ k ++ "\x27: " ++ pyRepr v
  | (k, v) :: e :: es => "\x27" ++ k ++ "\x27: " ++ pyRepr v ++ ", " ++ pyReprEntries (e :: es)
end

/-- Python `str(v)` as used by f-string interpolation: strings verbatim,
everything else via `repr`-style rendering. -/
def pyToStr : PyVal → String
  | PyVal.str s => s
  | v => pyRepr v

/-- The fixed sleep interval between polling cycles (`RETRY_TIME`). -/
def RETRY_TIME : Nat := 600

/-- `HOMEWORK_VERDICTS`: the fixed status-code → verdict-text table. -/
def HOMEWORK_VERDICTS : List (String × String) :=
  [("approved", "Работа проверена: ревьюеру всё понравилось. Ура!"),
   ("reviewing", "Работа взята на проверку ревьюером."),
   ("rejected", "Работа проверена: у ревьюера есть замечания.")]

/-- Python truthiness of an environment value (`os.getenv` result):
`None` and the empty string are falsy. -/
def truthy : Option String → Bool
  | Option.none => false
  | Option.some s => s ≠ ""

/-- `check_tokens()`: `all([TELEGRAM_TOKEN, TELEGRAM_CHAT_ID, PRACTICUM_TOKEN])`. -/
def check_tokens (telegramToken telegramChatId practicumToken : Option String) : Bool :=
  truthy telegramToken && truthy telegramChatId && truthy practicumToken

/-- The outcome of the single HTTP GET a cycle performs: either a
connection error, or a response with a status code and (decoded JSON)
body. -/
inductive ApiOutcome where
  | connError
  | httpResponse (status : Nat) (body : PyVal)

/-- `get_api_answer(current_timestamp)`: the request is issued with
`params = \x7b'from_date': timestamp\x7d`; a `requests.ConnectionError`
is re-raised as a bare `Exception` with a fixed message, a non-200 status
raises a bare `Exception` carrying the status code, and a 200 response
yields its decoded JSON body. -/
def get_api_answer (current_timestamp : PyVal) (outcome : ApiOutcome) : Except PyErr PyVal :=
  match outcome with
  | ApiOutcome.connError =>
      Except.error (PyErr.exn "Ошибка при запросе к эндпоинту API-сервиса")
  | ApiOutcome.httpResponse status body =>
      if status ≠ 200 then
        Except.error (PyErr.exn ("Неожиданный ответ сервера: " ++ toString status))
      else
        Except.ok body

/-- `check_response(response)`: raise `TypeError` when the response is not
a dict, `EmptyKeyError` when `homeworks` is absent, `EmptyKeyError` when
`current_date` is absent, `TypeError` when `homeworks` is not a list, and
otherwise return the homework list. -/
def check_response (response : PyVal) : Except PyErr (List PyVal) :=
  match response with
  | PyVal.dict es =>
      match lookupEntries es "homeworks" with
      | Option.none =>
          Except.error (PyErr.emptyKeyError "Отсутствует поле homeworks в ответе API")
      | Option.some homeworks =>
          match lookupEntries es "current_date" with
          | Option.none =>
              Except.error (PyErr.emptyKeyError "Отсутствует поле current_date в ответе API")
          | Option.some _ =>
              match homeworks with
              | PyVal.list hws => Except.ok hws
              | _ => Except.error (PyErr.typeError "Домашки пришли не в виде списка")
  | _ => Except.error (PyErr.typeError "Тип ответа API не является словарем")

/-- `homework_status not in HOMEWORK_VERDICTS` combined with the
subsequent `HOMEWORK_VERDICTS[homework_status]` access.  Membership in a
Python dict hashes the key, so an unhashable status value (a list or a
dict) raises `TypeError: unhashable type`; a hashable non-string value
(int, bool, None) is simply not among the string keys; a string key is
looked up, `Except.ok (Option.some verdict)` exactly when it is in the
table. -/
def verdictLookup : PyVal → Except PyErr (Option String)
  | PyVal.str s => Except.ok (lookupEntries HOMEWORK_VERDICTS s)
  | PyVal.list _ => Except.error (PyErr.typeError "unhashable type: \x27list\x27")
  | PyVal.dict _ => Except.error (PyErr.typeError "unhashable type: \x27dict\x27")
  | _ => Except.ok Option.none

/-- `parse_status(homework)`: raise `KeyError` when `homework_name` or
`status` is absent, a bare `Exception('Неизвестный статус')` when the
status is not in the verdict table, and otherwise format the
status-change message. -/
def parse_status (homework : PyVal) : Except PyErr String :=
  match pyContains homework "homework_name" with
  | Except.error e => Except.error e
  | Except.ok hasName =>
    if hasName = false then
      Except.error (PyErr.keyError "Отсутствует поле homework_name в ответе API")
    else
      match pyContains homework "status" with
      | Except.error e => Except.error e
      | Except.ok hasStatus =>
        if hasStatus = false then
          Except.error (PyErr.keyError "Отсутствует поле status в ответе API")
        else
          match pyGetItem homework "homework_name" with
          | Except.error e => Except.error e
          | Except.ok homework_name =>
            match pyGetItem homework "status" with
            | Except.error e => Except.error e
            | Except.ok homework_status =>
              match verdictLookup homework_status with
              | Except.error e => Except.error e
              | Except.ok Option.none => Except.error (PyErr.exn "Неизвестный статус")
              | Except.ok (Option.some verdict) =>
                  Except.ok ("Изменился статус проверки работы \"" ++
                    pyToStr homework_name ++ "\". " ++ verdict)

/-- Is the value a Python dict? -/
def isPyDict : PyVal → Bool
  | PyVal.dict _ => true
  | _ => false

/-- Is the value a Python list? -/
def isPyList : PyVal → Bool
  | PyVal.list _ => true
  | _ => false

/-- Does a dict value carry the key `k`?  (`false` on non-dicts.) -/
def dictHasKey (v : PyVal) (k : String) : Bool :=
  match v with
  | PyVal.dict es => (lookupEntries es k).isSome
  | _ => false

/-- The value bound to `homeworks` in a dict response, if any. -/
def homeworksValue : PyVal → Option PyVal
  | PyVal.dict es => lookupEntries es "homeworks"
  | _ => Option.none

/-- Severity of a log record emitted by the bot. -/
inductive LogLevel where
  | debug
  | info
  | error
deriving DecidableEq

/-- The two loop-local variables of `main`: the polling cursor
`current_timestamp` and the deduplication variable `error_message`.
`error_message` is a plain local that is only ever assigned inside the
loop body, so it starts *unbound* (`Option.none`); `Option.some s` means
it currently holds the string `s`. -/
structure BotState where
  current_timestamp : PyVal
  error_message : Option String

/-- The external effects of one cycle: the outcome of the HTTP GET, the
current wall-clock time `int(time.time())`, and whether each of the two
possible `bot.send_message` calls raises a `TelegramError` (with its
message) or succeeds (`Option.none`). -/
structure CycleEnv where
  api : ApiOutcome
  now : Int
  sendStatusFails : Option String
  sendFailureFails : Option String

/-- `send_message(bot, message)`: deliver the message and log an info
confirmation, or catch the `TelegramError` and log the failure at debug
severity.  Returns the list of messages actually delivered to the chat
and the log records emitted. -/
def send_message (message : String) (telegramFailure : Option String) :
    List String × List (LogLevel × String) :=
  match telegramFailure with
  | Option.none => ([message], [(LogLevel.info, "Сообщение отправлено")])
  | Option.some err => ([], [(LogLevel.debug, "Ошибка при отправке сообщения " ++ err)])

/-- Result of executing the body of the `try:` block of one cycle:
the exception that escaped it (if any), the loop-local variables
afterwards, the chat messages delivered, and the log records emitted. -/
structure TryOutcome where
  raised : Option PyErr
  state : BotState
  sent : List String
  logs : List (LogLevel × String)

/-- Outcome of the `try:` body when a statement raised `e`: both local
variables are still as they were at cycle entry (the two assignments at
the end of the block were not reached), and no chat message was sent. -/
def raisedOutcome (st : BotState) (e : PyErr) (logs : List (LogLevel × String)) :
    TryOutcome :=
  { raised := Option.some e, state := st, sent := [], logs := logs }

/-- `response.get('current_date', default)`: dict `.get` with a default.
Only reached when `response` passed `check_response`, hence is a dict. -/
def pyGet (v : PyVal) (k : String) (default : PyVal) : PyVal :=
  match v with
  | PyVal.dict es => (lookupEntries es k).getD default
  | _ => default

/-- Completion of the `try:` body without an exception: the cursor is set
to `response.get('current_date', int(time.time()))` and `error_message`
is set to the empty string. -/
def finishCycle (response : PyVal) (now : Int) (sent : List String)
    (logs : List (LogLevel × String)) : TryOutcome :=
  { raised := Option.none,
    state := { current_timestamp := pyGet response "current_date" (PyVal.int now),
               error_message := Option.some "" },
    sent := sent, logs := logs }

/-- The body of the `try:` block of one cycle of `main`'s loop:
fetch, validate, act on `homeworks[0]` when the list is non-empty (or log
a debug notice when it is empty), advance the cursor, clear
`error_message`. -/
def tryBody (st : BotState) (env : CycleEnv) : TryOutcome :=
  match get_api_answer st.current_timestamp env.api with
  | Except.error e => raisedOutcome st e []
  | Except.ok response =>
    match check_response response with
    | Except.error e => raisedOutcome st e []
    | Except.ok homeworks =>
      match homeworks with
      | [] => finishCycle response env.now [] [(LogLevel.debug, "Новые статусы отсутвуют")]
      | hw :: _ =>
        match parse_status hw with
        | Except.error e => raisedOutcome st e []
        | Except.ok status =>
          let sm := send_message status env.sendStatusFails
          finishCycle response env.now sm.1 sm.2

/-- Which branch of the cycle's `try/except` chain concluded the cycle:
no exception, the `except EasyError` branch, or the generic
`except Exception` branch (carrying the formatted failure message). -/
inductive CycleKind where
  | success
  | easyFail
  | genericFail (message : String)
deriving DecidableEq

/-- The observable result of one cycle: the loop-local variables
afterwards, the chat messages delivered, the log records, the branch
taken, and — when an exception escaped the handlers themselves — the
exception that terminates the process (`crash`). -/
structure CycleResult where
  state : BotState
  sent : List String
  logs : List (LogLevel × String)
  kind : CycleKind
  crash : Option PyErr

/-- The `except EasyError / except Exception` chain of `main`'s loop,
applied to the outcome of the `try:` body.  The easy class is only
logged.  The generic handler formats `Сбой в работе программы: {error}`,
logs it, and compares it against `error_message` — which raises
`UnboundLocalError` if that local was never assigned; on a new message it
calls `bot.send_message` *directly* (not via `send_message`), so a
`TelegramError` there escapes and terminates the process. -/
def handleCycle (env : CycleEnv) (t : TryOutcome) : CycleResult :=
  match t.raised with
  | Option.none =>
      { state := t.state, sent := t.sent, logs := t.logs,
        kind := CycleKind.success, crash := Option.none }
  | Option.some e =>
    if isEasyError e then
      { state := t.state, sent := t.sent,
        logs := t.logs ++ [(LogLevel.error, errStr e)],
        kind := CycleKind.easyFail, crash := Option.none }
    else
      match t.state.error_message with
      | Option.none =>
          { state := t.state, sent := t.sent,
            logs := t.logs ++ [(LogLevel.error, "Сбой в работе программы: " ++ errStr e)],
            kind := CycleKind.genericFail ("Сбой в работе программы: " ++ errStr e),
            crash := Option.some (PyErr.unboundLocalError "error_message") }
      | Option.some prev =>
          if ("Сбой в работе программы: " ++ errStr e) ≠ prev then
            match env.sendFailureFails with
            | Option.some terr =>
                { state := t.state, sent := t.sent,
                  logs := t.logs ++ [(LogLevel.error, "Сбой в работе программы: " ++ errStr e)],
                  kind := CycleKind.genericFail ("Сбой в работе программы: " ++ errStr e),
                  crash := Option.some (PyErr.telegramError terr) }
            | Option.none =>
                { state := { t.state with
                             error_message := Option.some ("Сбой в работе программы: " ++ errStr e) },
                  sent := t.sent ++ ["Сбой в работе программы: " ++ errStr e],
                  logs := t.logs ++ [(LogLevel.error, "Сбой в работе программы: " ++ errStr e)],
                  kind := CycleKind.genericFail ("Сбой в работе программы: " ++ errStr e),
                  crash := Option.none }
          else
            { state := t.state, sent := t.sent,
              logs := t.logs ++ [(LogLevel.error, "Сбой в работе программы: " ++ errStr e)],
              kind := CycleKind.genericFail ("Сбой в работе программы: " ++ errStr e),
              crash := Option.none }

/-- One full cycle of `main`'s `while True` loop (the `finally: sleep`
has no effect on the modelled state). -/
def runCycle (st : BotState) (env : CycleEnv) : CycleResult :=
  handleCycle env (tryBody st env)

/-- The loop-local variables right after `main` enters the loop: the
cursor is `int(time.time())` and `error_message` is not yet bound. -/
def initState (now : Int) : BotState :=
  { current_timestamp := PyVal.int now, error_message := Option.none }

/-- The observable result of a whole run: final loop-local variables,
every chat message delivered in order, and the exception that killed the
process, if one did. -/
structure RunResult where
  state : BotState
  sent : List String
  crash : Option PyErr

/-- Run the loop over a list of per-cycle environments, stopping early
when a cycle's exception escapes the handlers (process death). -/
def runCycles : BotState → List CycleEnv → RunResult
  | st, [] => { state := st, sent := [], crash := Option.none }
  | st, env :: rest =>
    let r := runCycle st env
    match r.crash with
    | Option.some e => { state := r.state, sent := r.sent, crash := Option.some e }
    | Option.none =>
      let rr := runCycles r.state rest
      { state := rr.state, sent := r.sent ++ rr.sent, crash := rr.crash }

/-- The modelled `main()` (named `mainRun` because Lean reserves `main`
for an entry point): exit with a message when a required environment
value is missing, otherwise initialize the cursor to "now" and run the
loop. -/
def mainRun (practicumToken telegramToken telegramChatId : Option String)
    (now : Int) (envs : List CycleEnv) : Except String RunResult :=
  if check_tokens telegramToken telegramChatId practicumToken = false then
    Except.error "Отсутствует одна(или более) из обязательных переменных окружения"
  else
    Except.ok (runCycles (initState now) envs)

/-- If a response body decodes successfully, the HTTP outcome was a 200
response with exactly that body. -/
theorem get_api_answer_ok (ts : PyVal) (api : ApiOutcome) (r : PyVal)
    (h : get_api_answer ts api = Except.ok r) :
    api = ApiOutcome.httpResponse 200 r := by
  cases api with
  | connError => simp [get_api_answer] at h
  | httpResponse status body =>
    by_cases h200 : status = 200
    · subst h200
      simp [get_api_answer] at h
      rw [h]
    · simp [get_api_answer, h200] at h

/-- Characterization of the `try:` body: when it raises, the loop-local
variables are untouched and nothing was sent; when it completes, the HTTP
outcome was a 200 response and the two trailing assignments ran. -/
theorem tryBody_char (st : BotState) (env : CycleEnv) :
    ((tryBody st env).raised ≠ Option.none →
      (tryBody st env).state = st ∧ (tryBody st env).sent = []) ∧
    ((tryBody st env).raised = Option.none →
      ∃ body, env.api = ApiOutcome.httpResponse 200 body ∧
        (tryBody st env).state.current_timestamp = pyGet body "current_date" (PyVal.int env.now) ∧
        (tryBody st env).state.error_message = Option.some "") := by
  unfold tryBody
  split
  · simp [raisedOutcome]
  · rename_i response hresp
    split
    · simp [raisedOutcome]
    · split
      · simp [finishCycle]
        exact ⟨response, get_api_answer_ok _ _ _ hresp, rfl⟩
      · split
        · simp [raisedOutcome]
        · simp [finishCycle, send_message]
          exact ⟨response, get_api_answer_ok _ _ _ hresp, rfl⟩

/-- A formatted failure message is never the empty string. -/
theorem failureMessage_ne_empty (s : String) :
    ("Сбой в работе программы: " ++ s) ≠ "" := by
  intro h
  have h2 := congrArg String.length h
  rw [String.length_append] at h2
  have h3 : ("Сбой в работе программы: " : String).length = 25 := by rfl
  have h4 : ("" : String).length = 0 := by rfl
  omega

/-- A cycle concludes in the success branch exactly when the `try:` body
raised no exception. -/
theorem runCycle_success_iff (st : BotState) (env : CycleEnv) :
    (runCycle st env).kind = CycleKind.success ↔ (tryBody st env).raised = Option.none := by
  unfold runCycle handleCycle
  cases h : (tryBody st env).raised with
  | none => simp
  | some e =>
    simp only
    split
    · simp
    · split
      · simp
      · split
        · split <;> simp
        · simp

/-- Exhaustive characterization of one cycle: exactly one of the six
control paths runs — success; easy error (logged only); generic error
with `error_message` unbound (process dies with `UnboundLocalError`);
generic error deduplicated against the previous failure text; generic
error whose notification send raises (process dies with the
`TelegramError`); generic error notified and remembered. -/
theorem runCycle_char (st : BotState) (env : CycleEnv) :
    ((tryBody st env).raised = Option.none ∧
      (runCycle st env).kind = CycleKind.success ∧
      (runCycle st env).crash = Option.none ∧
      (runCycle st env).state = (tryBody st env).state ∧
      (runCycle st env).sent = (tryBody st env).sent) ∨
    (∃ e, (tryBody st env).raised = Option.some e ∧ isEasyError e = true ∧
      (runCycle st env).kind = CycleKind.easyFail ∧
      (runCycle st env).crash = Option.none ∧
      (runCycle st env).state = st ∧ (runCycle st env).sent = []) ∨
    (∃ e, (tryBody st env).raised = Option.some e ∧ isEasyError e = false ∧
      st.error_message = Option.none ∧
      (runCycle st env).kind = CycleKind.genericFail ("Сбой в работе программы: " ++ errStr e) ∧
      (runCycle st env).crash = Option.some (PyErr.unboundLocalError "error_message") ∧
      (runCycle st env).state = st ∧ (runCycle st env).sent = []) ∨
    (∃ e prev, (tryBody st env).raised = Option.some e ∧ isEasyError e = false ∧
      st.error_message = Option.some prev ∧
      "Сбой в работе программы: " ++ errStr e = prev ∧
      (runCycle st env).kind = CycleKind.genericFail ("Сбой в работе программы: " ++ errStr e) ∧
      (runCycle st env).crash = Option.none ∧
      (runCycle st env).state = st ∧ (runCycle st env).sent = []) ∨
    (∃ e prev terr, (tryBody st env).raised = Option.some e ∧ isEasyError e = false ∧
      st.error_message = Option.some prev ∧
      "Сбой в работе программы: " ++ errStr e ≠ prev ∧
      env.sendFailureFails = Option.some terr ∧
      (runCycle st env).kind = CycleKind.genericFail ("Сбой в работе программы: " ++ errStr e) ∧
      (runCycle st env).crash = Option.some (PyErr.telegramError terr) ∧
      (runCycle st env).state = st ∧ (runCycle st env).sent = []) ∨
    (∃ e prev, (tryBody st env).raised = Option.some e ∧ isEasyError e = false ∧
      st.error_message = Option.some prev ∧
      "Сбой в работе программы: " ++ errStr e ≠ prev ∧
      env.sendFailureFails = Option.none ∧
      (runCycle st env).kind = CycleKind.genericFail ("Сбой в работе программы: " ++ errStr e) ∧
      (runCycle st env).crash = Option.none ∧
      (runCycle st env).state =
        { current_timestamp := st.current_timestamp,
          error_message := Option.some ("Сбой в работе программы: " ++ errStr e) } ∧
      (runCycle st env).sent = ["Сбой в работе программы: " ++ errStr e]) := by
  cases h : (tryBody st env).raised with
  | none =>
    left
    refine ⟨rfl, ?_, ?_, ?_, ?_⟩ <;>
      · unfold runCycle handleCycle
        rw [h]
  | some e =>
    obtain ⟨hst, hse⟩ := (tryBody_char st env).1 (by rw [h]; simp)
    right
    by_cases he : isEasyError e
    · left
      refine ⟨e, rfl, he, ?_, ?_, ?_, ?_⟩ <;>
        · unfold runCycle handleCycle
          rw [h]
          simp [he, hst, hse]
    · right
      cases hprev : st.error_message with
      | none =>
        left
        refine ⟨e, rfl, by simp [he], rfl, ?_, ?_, ?_, ?_⟩ <;>
          · unfold runCycle handleCycle
            rw [h]
            simp [he, hst, hse, hprev]
      | some prev =>
        right
        by_cases hm : ("Сбой в работе программы: " ++ errStr e) = prev
        · left
          refine ⟨e, prev, rfl, by simp [he], rfl, hm, ?_, ?_, ?_, ?_⟩ <;>
            · unfold runCycle handleCycle
              rw [h]
              simp [he, hst, hse, hprev, hm]
        · right
          cases hsf : env.sendFailureFails with
          | some terr =>
            left
            refine ⟨e, prev, terr, rfl, by simp [he], rfl, hm, rfl, ?_, ?_, ?_, ?_⟩ <;>
              · unfold runCycle handleCycle
                rw [h]
                simp [he, hst, hse, hprev, hm, hsf]
          | none =>
            right
            refine ⟨e, prev, rfl, by simp [he], rfl, hm, rfl, ?_, ?_, ?_, ?_⟩ <;>
              · unfold runCycle handleCycle
                rw [h]
                simp [he, hst, hse, hprev, hm, hsf]

/-- A cycle that ends in the generic handler without killing the process
behaves as the deduplicating notifier: the cursor is untouched,
`error_message` was necessarily bound already, and the failure text is
sent exactly when it differs from the remembered one (in which case it
becomes the remembered one). -/
theorem runCycle_genericFail_spec (st : BotState) (env : CycleEnv) (m : String)
    (hk : (runCycle st env).kind = CycleKind.genericFail m)
    (hc : (runCycle st env).crash = Option.none) :
    m ≠ "" ∧ (runCycle st env).state.current_timestamp = st.current_timestamp ∧
    ∃ prev, st.error_message = Option.some prev ∧
      ((m = prev ∧ (runCycle st env).sent = [] ∧
        (runCycle st env).state.error_message = Option.some prev) ∨
       (m ≠ prev ∧ (runCycle st env).sent = [m] ∧
        (runCycle st env).state.error_message = Option.some m)) := by
  rcases runCycle_char st env with
    ⟨_, hkind, _, _, _⟩ |
    ⟨e, _, _, hkind, _, _, _⟩ |
    ⟨e, _, _, _, _, hcrash, _, _⟩ |
    ⟨e, prev, _, _, hprev, hm, hkind, _, hstate, hsent⟩ |
    ⟨e, prev, terr, _, _, _, _, _, _, hcrash, _, _⟩ |
    ⟨e, prev, _, _, hprev, hm, _, hkind, _, hstate, hsent⟩
  · rw [hkind] at hk; exact absurd hk (by simp)
  · rw [hkind] at hk; exact absurd hk (by simp)
  · rw [hcrash] at hc; exact absurd hc (by simp)
  · rw [hkind] at hk
    have hme : "Сбой в работе программы: " ++ errStr e = m := by
      injection hk
    subst hme
    exact ⟨failureMessage_ne_empty _, by rw [hstate],
      prev, hprev, Or.inl ⟨hm, hsent, by rw [hstate]; exact hprev⟩⟩
  · rw [hcrash] at hc; exact absurd hc (by simp)
  · rw [hkind] at hk
    have hme : "Сбой в работе программы: " ++ errStr e = m := by
      injection hk
    subst hme
    exact ⟨failureMessage_ne_empty _, by rw [hstate],
      prev, hprev, Or.inr ⟨hm, hsent, by rw [hstate]⟩⟩

/-- A cycle that ends in the success branch clears `error_message` and
sets the cursor from the response, which was an HTTP 200 body. -/
theorem runCycle_success_spec (st : BotState) (env : CycleEnv)
    (hk : (runCycle st env).kind = CycleKind.success) :
    (runCycle st env).crash = Option.none ∧
    (runCycle st env).state.error_message = Option.some "" ∧
    ∃ body, env.api = ApiOutcome.httpResponse 200 body ∧
      (runCycle st env).state.current_timestamp =
        pyGet body "current_date" (PyVal.int env.now) := by
  have hr := (runCycle_success_iff st env).mp hk
  obtain ⟨body, hapi, hts, hem⟩ := (tryBody_char st env).2 hr
  rcases runCycle_char st env with
    ⟨_, _, hcrash, hstate, _⟩ |
    ⟨e, he, _, _, _, _, _⟩ |
    ⟨e, he, _, _, _, _, _, _⟩ |
    ⟨e, prev, he, _, _, _, _, _, _, _⟩ |
    ⟨e, prev, terr, he, _, _, _, _, _, _, _, _⟩ |
    ⟨e, prev, he, _, _, _, _, _, _, _, _⟩ <;>
      first
      | exact ⟨hcrash, by rw [hstate]; exact hem, body, hapi, by rw [hstate]; exact hts⟩
      | (rw [hr] at he; exact absurd he (by simp))

/-- A cycle that does not end in the success branch leaves the cursor
untouched. -/
theorem runCycle_failure_cursor (st : BotState) (env : CycleEnv)
    (hk : (runCycle st env).kind ≠ CycleKind.success) :
    (runCycle st env).state.current_timestamp = st.current_timestamp := by
  rcases runCycle_char st env with
    ⟨_, hkind, _, _, _⟩ |
    ⟨e, _, _, _, _, hstate, _⟩ |
    ⟨e, _, _, _, _, _, hstate, _⟩ |
    ⟨e, prev, _, _, _, _, _, _, hstate, _⟩ |
    ⟨e, prev, terr, _, _, _, _, _, _, _, hstate, _⟩ |
    ⟨e, prev, _, _, _, _, _, _, _, hstate, _⟩
  · exact absurd hkind hk
  all_goals rw [hstate]

/-- A cycle whose `try:` body raised an easy-class error is only logged
(at error severity): nothing is sent, nothing escapes, the loop-local
variables are untouched. -/
theorem runCycle_easy_spec (st : BotState) (env : CycleEnv) (e : PyErr)
    (h : (tryBody st env).raised = Option.some e) (he : isEasyError e = true) :
    (runCycle st env).kind = CycleKind.easyFail ∧
    (runCycle st env).crash = Option.none ∧
    (runCycle st env).sent = [] ∧
    (runCycle st env).state = st ∧
    (runCycle st env).logs = (tryBody st env).logs ++ [(LogLevel.error, errStr e)] := by
  obtain ⟨hst, hse⟩ := (tryBody_char st env).1 (by rw [h]; simp)
  unfold runCycle handleCycle
  rw [h]
  simp [he, hst, hse]

/-- Claim C3: for every homework record carrying `homework_name` and a
`status` that is a key of the verdict table, `parse_status` returns
`Изменился статус проверки работы "{homework_name}". {verdict}` with the
table entry for that status; for every record whose status fails the
membership test `not in HOMEWORK_VERDICTS` (a hashable value that is not
a key — the test itself raises `TypeError` on an unhashable list or dict
status, which `parse_status` propagates instead), it raises the
unrecognized-value error `Неизвестный статус`. -/
theorem claim_C3 (es : List (String × PyVal)) (name statusVal : PyVal)
    (hname : lookupEntries es "homework_name" = Option.some name)
    (hstatus : lookupEntries es "status" = Option.some statusVal) :
    (∀ s verdict, statusVal = PyVal.str s →
      lookupEntries HOMEWORK_VERDICTS s = Option.some verdict →
      parse_status (PyVal.dict es) =
        Except.ok ("Изменился статус проверки работы \"" ++ pyToStr name ++ "\". " ++ verdict)) ∧
    (verdictLookup statusVal = Except.ok Option.none →
      parse_status (PyVal.dict es) = Except.error (PyErr.exn "Неизвестный статус")) ∧
    (∀ e, verdictLookup statusVal = Except.error e →
      parse_status (PyVal.dict es) = Except.error e) := by
  refine ⟨?_, ?_, ?_⟩
  · intro s verdict hs hv
    subst hs
    unfold parse_status
    simp [pyContains, pyGetItem, hname, hstatus, verdictLookup, hv]
  · intro hnv
    unfold parse_status
    simp [pyContains, pyGetItem, hname, hstatus, hnv]
  · intro e he
    unfold parse_status
    simp [pyContains, pyGetItem, hname, hstatus, he]

/-- Witness for C3 at the spec's example: status `approved` on name `hw1`
yields the exact approved-verdict message; an unknown string status and a
hashable non-string status raise the unrecognized-value error; an
unhashable (list) status propagates the membership test's `TypeError`. -/
theorem claim_C3_witness :
    parse_status (PyVal.dict
      [("homework_name", PyVal.str "hw1"), ("status", PyVal.str "approved")]) =
      Except.ok "Изменился статус проверки работы \"hw1\". Работа проверена: ревьюеру всё понравилось. Ура!" ∧
    parse_status (PyVal.dict
      [("homework_name", PyVal.str "hw1"), ("status", PyVal.str "escalated")]) =
      Except.error (PyErr.exn "Неизвестный статус") ∧
    parse_status (PyVal.dict
      [("homework_name", PyVal.str "hw1"), ("status", PyVal.int 5)]) =
      Except.error (PyErr.exn "Неизвестный статус") ∧
    parse_status (PyVal.dict
      [("homework_name", PyVal.str "hw1"), ("status", PyVal.list [])]) =
      Except.error (PyErr.typeError "unhashable type: \x27list\x27") := by
  refine ⟨?_, ?_, ?_, ?_⟩
  · exact (claim_C3
      [("homework_name", PyVal.str "hw1"), ("status", PyVal.str "approved")]
      (PyVal.str "hw1") (PyVal.str "approved") rfl rfl).1
      "approved" "Работа проверена: ревьюеру всё понравилось. Ура!" rfl rfl
  · exact (claim_C3
      [("homework_name", PyVal.str "hw1"), ("status", PyVal.str "escalated")]
      (PyVal.str "hw1") (PyVal.str "escalated") rfl rfl).2.1 rfl
  · exact (claim_C3
      [("homework_name", PyVal.str "hw1"), ("status", PyVal.int 5)]
      (PyVal.str "hw1") (PyVal.int 5) rfl rfl).2.1 rfl
  · exact (claim_C3
      [("homework_name", PyVal.str "hw1"), ("status", PyVal.list [])]
      (PyVal.str "hw1") (PyVal.list []) rfl rfl).2.2
      (PyErr.typeError "unhashable type: \x27list\x27") rfl

/-- Claim C4: `check_response` raises a type-mismatch error iff the
response is not a mapping or both keys are present but `homeworks` is not
a list; it raises a missing-field error iff the response is a mapping
lacking `homeworks` or lacking `current_date`; and it returns the
homework sequence unchanged exactly when the response is a mapping with
`current_date` present and `homeworks` bound to that list. -/
theorem claim_C4 (response : PyVal) :
    ((∃ m, check_response response = Except.error (PyErr.typeError m)) ↔
      (isPyDict response = false ∨
       (dictHasKey response "homeworks" = true ∧
        dictHasKey response "current_date" = true ∧
        ∀ v, homeworksValue response = Option.some v → isPyList v = false))) ∧
    ((∃ m, check_response response = Except.error (PyErr.emptyKeyError m)) ↔
      (isPyDict response = true ∧
       (dictHasKey response "homeworks" = false ∨
        dictHasKey response "current_date" = false))) ∧
    (∀ hws, check_response response = Except.ok hws ↔
      (dictHasKey response "current_date" = true ∧
       homeworksValue response = Option.some (PyVal.list hws))) := by
  cases response with
  | dict es =>
    cases hhw : lookupEntries es "homeworks" with
    | none =>
      simp [check_response, isPyDict, dictHasKey, homeworksValue, hhw]
    | some hv =>
      cases hcd : lookupEntries es "current_date" with
      | none =>
        simp [check_response, isPyDict, dictHasKey, homeworksValue, hhw, hcd]
      | some cv =>
        cases hv <;>
          simp [check_response, isPyDict, dictHasKey, homeworksValue, isPyList, hhw, hcd]
  | none => simp [check_response, isPyDict, dictHasKey, homeworksValue]
  | bool b => simp [check_response, isPyDict, dictHasKey, homeworksValue]
  | int n => simp [check_response, isPyDict, dictHasKey, homeworksValue]
  | str s => simp [check_response, isPyDict, dictHasKey, homeworksValue]
  | list xs => simp [check_response, isPyDict, dictHasKey, homeworksValue]

/-- Witness for C4: a well-shaped response returns its homework list, a
response lacking `homeworks` raises the missing-field error, and a
non-mapping response raises the type-mismatch error. -/
theorem claim_C4_witness :
    check_response (PyVal.dict
      [("homeworks", PyVal.list []), ("current_date", PyVal.int 5)]) = Except.ok [] ∧
    (∃ m, check_response (PyVal.dict [("current_date", PyVal.int 5)]) =
      Except.error (PyErr.emptyKeyError m)) ∧
    (∃ m, check_response (PyVal.str "nope") = Except.error (PyErr.typeError m)) := by
  refine ⟨?_, ?_, ?_⟩
  · exact ((claim_C4 (PyVal.dict
      [("homeworks", PyVal.list []), ("current_date", PyVal.int 5)])).2.2 []).mpr ⟨rfl, rfl⟩
  · exact (claim_C4 (PyVal.dict [("current_date", PyVal.int 5)])).2.1.mpr ⟨rfl, Or.inl rfl⟩
  · exact (claim_C4 (PyVal.str "nope")).1.mpr (Or.inl rfl)

/-- Claim C9: `get_api_answer` wraps a connection error into a generic
cycle failure; a non-200 HTTP status raises a generic failure whose
message carries the status code (concretely, the HTTP 500 message
contains `500`); a 200 response returns the decoded JSON body. -/
theorem claim_C9 (ts : PyVal) (status : Nat) (body : PyVal)
    (h200 : status ≠ 200) :
    get_api_answer ts ApiOutcome.connError =
      Except.error (PyErr.exn "Ошибка при запросе к эндпоинту API-сервиса") ∧
    get_api_answer ts (ApiOutcome.httpResponse status body) =
      Except.error (PyErr.exn ("Неожиданный ответ сервера: " ++ toString status)) ∧
    strContainsSub "Неожиданный ответ сервера: 500" "500" = true ∧
    get_api_answer ts (ApiOutcome.httpResponse 200 body) = Except.ok body := by
  refine ⟨rfl, ?_, by rfl, by simp [get_api_answer]⟩
  simp [get_api_answer, h200]

/-- Witness for C9 at status 500. -/
theorem claim_C9_witness :
    get_api_answer (PyVal.int 0) (ApiOutcome.httpResponse 500 PyVal.none) =
      Except.error (PyErr.exn "Неожиданный ответ сервера: 500") := by
  exact (claim_C9 (PyVal.int 0) 500 PyVal.none (by decide)).2.1

/-- Claim C10: response validation checks only the presence of
`current_date`, never its type: any mapping whose `homeworks` is a list
and which binds `current_date` to a value of any type validates, and on a
successful cycle that bound value — whatever it is — becomes the next
cursor unexamined. -/
theorem claim_C10 (es : List (String × PyVal)) (hws : List PyVal) (v : PyVal)
    (hhw : lookupEntries es "homeworks" = Option.some (PyVal.list hws))
    (hcd : lookupEntries es "current_date" = Option.some v) :
    check_response (PyVal.dict es) = Except.ok hws ∧
    (∀ st env, env.api = ApiOutcome.httpResponse 200 (PyVal.dict es) →
      (runCycle st env).kind = CycleKind.success →
      (runCycle st env).state.current_timestamp = v) := by
  constructor
  · simp [check_response, hhw, hcd]
  · intro st env hapi hk
    obtain ⟨_, _, body, hbody, hts⟩ := runCycle_success_spec st env hk
    rw [hapi] at hbody
    have : PyVal.dict es = body := by injection hbody
    rw [hts, ← this]
    simp [pyGet, hcd]

/-- Witness for C10: `current_date` bound to a *string* passes validation
and becomes the cursor after the successful cycle. -/
theorem claim_C10_witness :
    check_response (PyVal.dict
      [("homeworks", PyVal.list []), ("current_date", PyVal.str "not-a-timestamp")]) =
      Except.ok [] ∧
    (runCycle { current_timestamp := PyVal.int 0, error_message := Option.none }
      { api := ApiOutcome.httpResponse 200 (PyVal.dict
          [("homeworks", PyVal.list []), ("current_date", PyVal.str "not-a-timestamp")]),
        now := 77, sendStatusFails := Option.none,
        sendFailureFails := Option.none }).state.current_timestamp =
      PyVal.str "not-a-timestamp" := by
  constructor
  · exact (claim_C10
      [("homeworks", PyVal.list []), ("current_date", PyVal.str "not-a-timestamp")]
      [] (PyVal.str "not-a-timestamp") rfl rfl).1
  · exact (claim_C10
      [("homeworks", PyVal.list []), ("current_date", PyVal.str "not-a-timestamp")]
      [] (PyVal.str "not-a-timestamp") rfl rfl).2
      { current_timestamp := PyVal.int 0, error_message := Option.none }
      { api := ApiOutcome.httpResponse 200 (PyVal.dict
          [("homeworks", PyVal.list []), ("current_date", PyVal.str "not-a-timestamp")]),
        now := 77, sendStatusFails := Option.none,
        sendFailureFails := Option.none }
      rfl rfl

/-- Claim C7: the cursor starts at the wall-clock time; a successful
cycle sets it to the response's `current_date` (falling back to the
current time when that key is absent); a cycle that fails leaves it
unchanged. -/
theorem claim_C7 :
    (∀ now, (initState now).current_timestamp = PyVal.int now) ∧
    (∀ st env, (runCycle st env).kind = CycleKind.success →
      ∃ body, env.api = ApiOutcome.httpResponse 200 body ∧
        (runCycle st env).state.current_timestamp =
          pyGet body "current_date" (PyVal.int env.now)) ∧
    (∀ es d, lookupEntries es "current_date" = Option.none →
      pyGet (PyVal.dict es) "current_date" d = d) ∧
    (∀ st env, (runCycle st env).kind ≠ CycleKind.success →
      (runCycle st env).state.current_timestamp = st.current_timestamp) := by
  refine ⟨fun now => rfl, fun st env hk => ?_,
    fun es d h => by simp [pyGet, h], runCycle_failure_cursor⟩
  obtain ⟨_, _, body, hapi, hts⟩ := runCycle_success_spec st env hk
  exact ⟨body, hapi, hts⟩

/-- Witness for C7: startup cursor, a successful cycle taking
`current_date = 123`, the defensive fallback, and an unchanged cursor on
a failing cycle. -/
theorem claim_C7_witness :
    (initState 42).current_timestamp = PyVal.int 42 ∧
    (runCycle { current_timestamp := PyVal.int 0, error_message := Option.none }
      { api := ApiOutcome.httpResponse 200 (PyVal.dict
          [("homeworks", PyVal.list []), ("current_date", PyVal.int 123)]),
        now := 9, sendStatusFails := Option.none,
        sendFailureFails := Option.none }).state.current_timestamp = PyVal.int 123 ∧
    pyGet (PyVal.dict []) "current_date" (PyVal.int 9) = PyVal.int 9 ∧
    (runCycle { current_timestamp := PyVal.int 0, error_message := Option.some "" }
      { api := ApiOutcome.connError, now := 9, sendStatusFails := Option.none,
        sendFailureFails := Option.none }).state.current_timestamp = PyVal.int 0 := by
  refine ⟨claim_C7.1 42, ?_, claim_C7.2.2.1 [] (PyVal.int 9) rfl, ?_⟩
  · obtain ⟨body, hapi, hts⟩ := claim_C7.2.1
      { current_timestamp := PyVal.int 0, error_message := Option.none }
      { api := ApiOutcome.httpResponse 200 (PyVal.dict
          [("homeworks", PyVal.list []), ("current_date", PyVal.int 123)]),
        now := 9, sendStatusFails := Option.none,
        sendFailureFails := Option.none } rfl
    have hb : body = PyVal.dict
        [("homeworks", PyVal.list []), ("current_date", PyVal.int 123)] := by
      injection hapi.symm
    rw [hts, hb]
    rfl
  · exact claim_C7.2.2.2
      { current_timestamp := PyVal.int 0, error_message := Option.some "" }
      { api := ApiOutcome.connError, now := 9, sendStatusFails := Option.none,
        sendFailureFails := Option.none }
      (by decide)

/-- Claim C6: every successful cycle resets the remembered failure
message to the empty string; hence when a failure with text `m` is
notified, then a cycle succeeds, then a failure with the identical text
`m` occurs (and its notification dispatch does not kill the process), the
second failure is notified again. -/
theorem claim_C6 :
    (∀ st env, (runCycle st env).kind = CycleKind.success →
      (runCycle st env).state.error_message = Option.some "") ∧
    (∀ st e1 e2 e3 m,
      (runCycle st e1).kind = CycleKind.genericFail m →
      (runCycle st e1).sent = [m] →
      (runCycle (runCycle st e1).state e2).kind = CycleKind.success →
      (runCycle (runCycle (runCycle st e1).state e2).state e3).kind = CycleKind.genericFail m →
      (runCycle (runCycle (runCycle st e1).state e2).state e3).crash = Option.none →
      (runCycle (runCycle (runCycle st e1).state e2).state e3).sent = [m]) := by
  have hreset : ∀ st env, (runCycle st env).kind = CycleKind.success →
      (runCycle st env).state.error_message = Option.some "" :=
    fun st env hk => (runCycle_success_spec st env hk).2.1
  refine ⟨hreset, fun st e1 e2 e3 m hk1 hs1 hk2 hk3 hc3 => ?_⟩
  have hem2 := hreset (runCycle st e1).state e2 hk2
  obtain ⟨hm0, _, prev, hprev, hcases⟩ :=
    runCycle_genericFail_spec (runCycle (runCycle st e1).state e2).state e3 m hk3 hc3
  have hprev0 : prev = "" := by
    rw [hem2] at hprev
    injection hprev.symm
  rcases hcases with ⟨heq, _, _⟩ | ⟨_, hsent, _⟩
  · exact absurd (heq.trans hprev0) hm0
  · exact hsent

/-- Witness for C6: a notified connection failure, a successful cycle,
then the textually identical connection failure — notified again. -/
theorem claim_C6_witness :
    (runCycle
      (runCycle
        (runCycle { current_timestamp := PyVal.int 0, error_message := Option.some "" }
          { api := ApiOutcome.connError, now := 1, sendStatusFails := Option.none,
            sendFailureFails := Option.none }).state
        { api := ApiOutcome.httpResponse 200 (PyVal.dict
            [("homeworks", PyVal.list []), ("current_date", PyVal.int 50)]),
          now := 2, sendStatusFails := Option.none,
          sendFailureFails := Option.none }).state
      { api := ApiOutcome.connError, now := 3, sendStatusFails := Option.none,
        sendFailureFails := Option.none }).sent =
      ["Сбой в работе программы: Ошибка при запросе к эндпоинту API-сервиса"] := by
  exact claim_C6.2
    { current_timestamp := PyVal.int 0, error_message := Option.some "" }
    { api := ApiOutcome.connError, now := 1, sendStatusFails := Option.none,
      sendFailureFails := Option.none }
    { api := ApiOutcome.httpResponse 200 (PyVal.dict
        [("homeworks", PyVal.list []), ("current_date", PyVal.int 50)]),
      now := 2, sendStatusFails := Option.none,
      sendFailureFails := Option.none }
    { api := ApiOutcome.connError, now := 3, sendStatusFails := Option.none,
      sendFailureFails := Option.none }
    "Сбой в работе программы: Ошибка при запросе к эндпоинту API-сервиса"
    rfl rfl rfl rfl rfl

/-- Counterexample to C5 as stated: a cycle in which the homework record
lacks `homework_name` raises a missing-field error (`KeyError`), yet that
error is *not* of the easy class and a chat notification *is* sent for
it. -/
theorem claim_C5_counterexample :
    (runCycle { current_timestamp := PyVal.int 0, error_message := Option.some "" }
      { api := ApiOutcome.httpResponse 200 (PyVal.dict
          [("homeworks", PyVal.list [PyVal.dict []]), ("current_date", PyVal.int 10)]),
        now := 1, sendStatusFails := Option.none,
        sendFailureFails := Option.none }).sent =
      ["Сбой в работе программы: \x27Отсутствует поле homework_name в ответе API\x27"] ∧
    (runCycle { current_timestamp := PyVal.int 0, error_message := Option.some "" }
      { api := ApiOutcome.httpResponse 200 (PyVal.dict
          [("homeworks", PyVal.list [PyVal.dict []]), ("current_date", PyVal.int 10)]),
        now := 1, sendStatusFails := Option.none,
        sendFailureFails := Option.none }).kind ≠ CycleKind.easyFail ∧
    isEasyError (PyErr.keyError "Отсутствует поле homework_name в ответе API") = false := by
  exact ⟨rfl, by decide, rfl⟩

/-- Claim C5 (amended): only missing-field errors raised as the
designated easy class — those of `check_response` (`EmptyKeyError`) — are
logged at error severity and swallowed with no chat notification; the
missing-field errors of `parse_status` are plain `KeyError`s, which are
not in the easy class and instead follow the generic notification path. -/
theorem claim_C5 :
    (∀ st env e, (tryBody st env).raised = Option.some e → isEasyError e = true →
      (runCycle st env).kind = CycleKind.easyFail ∧
      (runCycle st env).crash = Option.none ∧
      (runCycle st env).sent = [] ∧
      (runCycle st env).logs = (tryBody st env).logs ++ [(LogLevel.error, errStr e)]) ∧
    (∀ m, isEasyError (PyErr.emptyKeyError m) = true) ∧
    (∀ es, lookupEntries es "homework_name" = Option.none →
      parse_status (PyVal.dict es) =
        Except.error (PyErr.keyError "Отсутствует поле homework_name в ответе API")) ∧
    (∀ es nv, lookupEntries es "homework_name" = Option.some nv →
      lookupEntries es "status" = Option.none →
      parse_status (PyVal.dict es) =
        Except.error (PyErr.keyError "Отсутствует поле status в ответе API")) ∧
    (∀ m, isEasyError (PyErr.keyError m) = false) := by
  refine ⟨fun st env e h he => ?_, fun m => rfl, fun es h => ?_,
    fun es nv hn hs => ?_, fun m => rfl⟩
  · obtain ⟨hk, hc, hs, _, hl⟩ := runCycle_easy_spec st env e h he
    exact ⟨hk, hc, hs, hl⟩
  · unfold parse_status
    simp [pyContains, h]
  · unfold parse_status
    simp [pyContains, hn, hs]

/-- Witness for C5 (amended): a response lacking `current_date` yields an
easy-class cycle that sends nothing, and a record lacking
`homework_name` makes `parse_status` raise the (non-easy) `KeyError`. -/
theorem claim_C5_witness :
    (runCycle { current_timestamp := PyVal.int 0, error_message := Option.some "" }
      { api := ApiOutcome.httpResponse 200 (PyVal.dict [("homeworks", PyVal.list [])]),
        now := 1, sendStatusFails := Option.none,
        sendFailureFails := Option.none }).kind = CycleKind.easyFail ∧
    (runCycle { current_timestamp := PyVal.int 0, error_message := Option.some "" }
      { api := ApiOutcome.httpResponse 200 (PyVal.dict [("homeworks", PyVal.list [])]),
        now := 1, sendStatusFails := Option.none,
        sendFailureFails := Option.none }).sent = [] ∧
    parse_status (PyVal.dict []) =
      Except.error (PyErr.keyError "Отсутствует поле homework_name в ответе API") := by
  obtain ⟨hk, _, hs, _⟩ := claim_C5.1
    { current_timestamp := PyVal.int 0, error_message := Option.some "" }
    { api := ApiOutcome.httpResponse 200 (PyVal.dict [("homeworks", PyVal.list [])]),
      now := 1, sendStatusFails := Option.none, sendFailureFails := Option.none }
    (PyErr.emptyKeyError "Отсутствует поле current_date в ответе API") rfl rfl
  exact ⟨hk, hs, claim_C5.2.2.1 [] rfl⟩

/-- Counterexample to C1 as stated: three consecutive failing cycles with
the identical formatted failure text (starting right after a successful
cycle).  The second and third form a pair of consecutive failing cycles
with identical text across which *zero* chat notifications are sent, not
exactly one — the single notification happened in the first cycle. -/
theorem claim_C1_counterexample :
    (runCycle
      (runCycle { current_timestamp := PyVal.int 0, error_message := Option.some "" }
        { api := ApiOutcome.connError, now := 0, sendStatusFails := Option.none,
          sendFailureFails := Option.none }).state
      { api := ApiOutcome.connError, now := 0, sendStatusFails := Option.none,
        sendFailureFails := Option.none }).kind =
      CycleKind.genericFail "Сбой в работе программы: Ошибка при запросе к эндпоинту API-сервиса" ∧
    (runCycle
      (runCycle
        (runCycle { current_timestamp := PyVal.int 0, error_message := Option.some "" }
          { api := ApiOutcome.connError, now := 0, sendStatusFails := Option.none,
            sendFailureFails := Option.none }).state
        { api := ApiOutcome.connError, now := 0, sendStatusFails := Option.none,
          sendFailureFails := Option.none }).state
      { api := ApiOutcome.connError, now := 0, sendStatusFails := Option.none,
        sendFailureFails := Option.none }).kind =
      CycleKind.genericFail "Сбой в работе программы: Ошибка при запросе к эндпоинту API-сервиса" ∧
    (runCycle
      (runCycle { current_timestamp := PyVal.int 0, error_message := Option.some "" }
        { api := ApiOutcome.connError, now := 0, sendStatusFails := Option.none,
          sendFailureFails := Option.none }).state
      { api := ApiOutcome.connError, now := 0, sendStatusFails := Option.none,
        sendFailureFails := Option.none }).crash = Option.none ∧
    (runCycle
      (runCycle
        (runCycle { current_timestamp := PyVal.int 0, error_message := Option.some "" }
          { api := ApiOutcome.connError, now := 0, sendStatusFails := Option.none,
            sendFailureFails := Option.none }).state
        { api := ApiOutcome.connError, now := 0, sendStatusFails := Option.none,
          sendFailureFails := Option.none }).state
      { api := ApiOutcome.connError, now := 0, sendStatusFails := Option.none,
        sendFailureFails := Option.none }).crash = Option.none ∧
    ((runCycle
      (runCycle { current_timestamp := PyVal.int 0, error_message := Option.some "" }
        { api := ApiOutcome.connError, now := 0, sendStatusFails := Option.none,
          sendFailureFails := Option.none }).state
      { api := ApiOutcome.connError, now := 0, sendStatusFails := Option.none,
        sendFailureFails := Option.none }).sent ++
     (runCycle
      (runCycle
        (runCycle { current_timestamp := PyVal.int 0, error_message := Option.some "" }
          { api := ApiOutcome.connError, now := 0, sendStatusFails := Option.none,
            sendFailureFails := Option.none }).state
        { api := ApiOutcome.connError, now := 0, sendStatusFails := Option.none,
          sendFailureFails := Option.none }).state
      { api := ApiOutcome.connError, now := 0, sendStatusFails := Option.none,
        sendFailureFails := Option.none }).sent) = ([] : List String) := by
  exact ⟨rfl, rfl, rfl, rfl, rfl⟩

/-- Claim C1 (amended): across two consecutive failing cycles that both
reach the generic handler without killing the process, at most one chat
notification is sent when their failure texts are identical — exactly one
iff the first cycle's text differs from the failure text remembered when
the pair starts; and when the second cycle's failure text differs from
the first, the second cycle sends its notification. -/
theorem claim_C1
    (st : BotState) (e1 e2 : CycleEnv) (m1 m2 : String)
    (hk1 : (runCycle st e1).kind = CycleKind.genericFail m1)
    (hc1 : (runCycle st e1).crash = Option.none)
    (hk2 : (runCycle (runCycle st e1).state e2).kind = CycleKind.genericFail m2)
    (hc2 : (runCycle (runCycle st e1).state e2).crash = Option.none) :
    (m1 = m2 →
      ((runCycle st e1).sent ++ (runCycle (runCycle st e1).state e2).sent).length ≤ 1 ∧
      (((runCycle st e1).sent ++ (runCycle (runCycle st e1).state e2).sent).length = 1 ↔
        st.error_message ≠ Option.some m1)) ∧
    (m1 ≠ m2 → (runCycle (runCycle st e1).state e2).sent = [m2]) := by
  obtain ⟨_, _, prev, hprev, hcase1⟩ := runCycle_genericFail_spec st e1 m1 hk1 hc1
  obtain ⟨_, _, prev2, hprev2, hcase2⟩ :=
    runCycle_genericFail_spec (runCycle st e1).state e2 m2 hk2 hc2
  have hem1 : (runCycle st e1).state.error_message = Option.some m1 := by
    rcases hcase1 with ⟨heq, _, hem⟩ | ⟨_, _, hem⟩
    · rw [hem, heq]
    · exact hem
  have hprev2m : prev2 = m1 := by
    rw [hem1] at hprev2
    injection hprev2 with h
    exact h.symm
  constructor
  · intro hm
    subst hm
    have hsent2 : (runCycle (runCycle st e1).state e2).sent = [] := by
      rcases hcase2 with ⟨_, hs, _⟩ | ⟨hne, _, _⟩
      · exact hs
      · exact absurd hprev2m.symm hne
    rcases hcase1 with ⟨heq, hs1, _⟩ | ⟨hne, hs1, _⟩
    · rw [hs1, hsent2]
      constructor
      · simp
      · simp only [List.length_nil, List.nil_append]
        constructor
        · intro h01
          exact absurd h01 (by simp)
        · intro hne1
          rw [← heq] at hprev
          exact absurd hprev hne1
    · rw [hs1, hsent2]
      constructor
      · simp
      · simp only [List.length_append, List.length_cons, List.length_nil]
        constructor
        · intro _
          rw [hprev]
          intro hcontra
          exact hne (by injection hcontra.symm)
        · intro _
          trivial
  · intro hm
    rcases hcase2 with ⟨heq2, _, _⟩ | ⟨_, hs2, _⟩
    · exact absurd (heq2.trans hprev2m).symm hm
    · exact hs2

/-- Witness for C1 (amended): starting right after a successful cycle,
two identical consecutive connection failures produce exactly one
notification, and a second failing cycle with a different text (HTTP 500)
sends its own notification. -/
theorem claim_C1_witness :
    ((runCycle { current_timestamp := PyVal.int 0, error_message := Option.some "" }
        { api := ApiOutcome.connError, now := 0, sendStatusFails := Option.none,
          sendFailureFails := Option.none }).sent ++
      (runCycle
        (runCycle { current_timestamp := PyVal.int 0, error_message := Option.some "" }
          { api := ApiOutcome.connError, now := 0, sendStatusFails := Option.none,
            sendFailureFails := Option.none }).state
        { api := ApiOutcome.connError, now := 0, sendStatusFails := Option.none,
          sendFailureFails := Option.none }).sent).length = 1 ∧
    (runCycle
      (runCycle { current_timestamp := PyVal.int 0, error_message := Option.some "" }
        { api := ApiOutcome.connError, now := 0, sendStatusFails := Option.none,
          sendFailureFails := Option.none }).state
      { api := ApiOutcome.httpResponse 500 PyVal.none, now := 0,
        sendStatusFails := Option.none, sendFailureFails := Option.none }).sent =
      ["Сбой в работе программы: Неожиданный ответ сервера: 500"] := by
  constructor
  · exact ((claim_C1
      { current_timestamp := PyVal.int 0, error_message := Option.some "" }
      { api := ApiOutcome.connError, now := 0, sendStatusFails := Option.none,
        sendFailureFails := Option.none }
      { api := ApiOutcome.connError, now := 0, sendStatusFails := Option.none,
        sendFailureFails := Option.none }
      "Сбой в работе программы: Ошибка при запросе к эндпоинту API-сервиса"
      "Сбой в работе программы: Ошибка при запросе к эндпоинту API-сервиса"
      rfl rfl rfl rfl).1 rfl).2.mpr (by decide)
  · exact (claim_C1
      { current_timestamp := PyVal.int 0, error_message := Option.some "" }
      { api := ApiOutcome.connError, now := 0, sendStatusFails := Option.none,
        sendFailureFails := Option.none }
      { api := ApiOutcome.httpResponse 500 PyVal.none, now := 0,
        sendStatusFails := Option.none, sendFailureFails := Option.none }
      "Сбой в работе программы: Ошибка при запросе к эндпоинту API-сервиса"
      "Сбой в работе программы: Неожиданный ответ сервера: 500"
      rfl rfl rfl rfl).2 (by decide)

/-- Claim C2 evaluated at its failing inputs (code bug): after startup
succeeds, a failure in the very first cycle is *not* contained — the
generic handler reads the never-assigned local `error_message` and the
process dies with `UnboundLocalError` before sending anything; likewise a
`TelegramError` raised by the failure-notification send escapes the
handler and kills the process. -/
theorem claim_C2_code_bug :
    mainRun (Option.some "practicum-token") (Option.some "bot-token")
      (Option.some "chat-id") 0
      [{ api := ApiOutcome.connError, now := 0, sendStatusFails := Option.none,
         sendFailureFails := Option.none }] =
      Except.ok
        { state := { current_timestamp := PyVal.int 0, error_message := Option.none },
          sent := [],
          crash := Option.some (PyErr.unboundLocalError "error_message") } ∧
    (runCycle { current_timestamp := PyVal.int 5, error_message := Option.some "" }
      { api := ApiOutcome.connError, now := 5, sendStatusFails := Option.none,
        sendFailureFails := Option.some "chat unreachable" }).crash =
      Option.some (PyErr.telegramError "chat unreachable") := by
  exact ⟨rfl, rfl⟩

/-- Claim C8 evaluated at its failing input (code bug): the guarded
wrapper `send_message` does catch, log and drop a `TelegramError` — so
the status-message send of a successful cycle cannot affect the cycle,
which still succeeds and advances the cursor — but the
failure-notification send in the error path calls the bot directly,
and a `TelegramError` there propagates and kills the process with the
notification unsent. -/
theorem claim_C8_code_bug :
    send_message "hello" (Option.some "boom") =
      ([], [(LogLevel.debug, "Ошибка при отправке сообщения boom")]) ∧
    (runCycle { current_timestamp := PyVal.int 0, error_message := Option.some "" }
      { api := ApiOutcome.httpResponse 200 (PyVal.dict
          [("homeworks", PyVal.list [PyVal.dict
             [("homework_name", PyVal.str "hw1"), ("status", PyVal.str "approved")]]),
           ("current_date", PyVal.int 1700000000)]),
        now := 3, sendStatusFails := Option.some "boom",
        sendFailureFails := Option.none }).kind = CycleKind.success ∧
    (runCycle { current_timestamp := PyVal.int 0, error_message := Option.some "" }
      { api := ApiOutcome.httpResponse 200 (PyVal.dict
          [("homeworks", PyVal.list [PyVal.dict
             [("homework_name", PyVal.str "hw1"), ("status", PyVal.str "approved")]]),
           ("current_date", PyVal.int 1700000000)]),
        now := 3, sendStatusFails := Option.some "boom",
        sendFailureFails := Option.none }).state.current_timestamp =
      PyVal.int 1700000000 ∧
    (runCycle { current_timestamp := PyVal.int 0, error_message := Option.some "" }
      { api := ApiOutcome.httpResponse 200 (PyVal.dict
          [("homeworks", PyVal.list [PyVal.dict
             [("homework_name", PyVal.str "hw1"), ("status", PyVal.str "approved")]]),
           ("current_date", PyVal.int 1700000000)]),
        now := 3, sendStatusFails := Option.some "boom",
        sendFailureFails := Option.none }).crash = Option.none ∧
    (runCycle { current_timestamp := PyVal.int 7, error_message := Option.some "" }
      { api := ApiOutcome.connError, now := 7, sendStatusFails := Option.none,
        sendFailureFails := Option.some "boom" }).crash =
      Option.some (PyErr.telegramError "boom") ∧
    (runCycle { current_timestamp := PyVal.int 7, error_message := Option.some "" }
      { api := ApiOutcome.connError, now := 7, sendStatusFails := Option.none,
        sendFailureFails := Option.some "boom" }).sent = [] := by
  exact ⟨rfl, rfl, rfl, rfl, rfl, rfl⟩
